import Mathlib

/-!
Verification of the device registry, topic-routing and discovery-reconciliation
core of the `udi-mqtt-pg3x` node server (`nodes/Controller.py`).

The Python code is shallowly embedded: configuration values become the
inductive `PyVal`, Python dicts become ordered association lists, the
controller's mutable instance fields become an explicit state record, and the
host-platform (`udi_interface`) calls become explicit state transitions modelled
from the specification (the platform itself is an external collaborator whose
source is not part of this repository).
-/

namespace MqttPoly

/-- A Python (YAML/JSON) configuration value: `None`, `bool`, `int`, `str`,
`list` or `dict` (ordered, keys unique). -/
inductive PyVal where
  | pnone
  | pbool (b : Bool)
  | pint (n : Int)
  | pstr (s : String)
  | plist (xs : List PyVal)
  | pdict (xs : List (String × PyVal))
deriving Repr

/-- Numeric view of a value: Python treats `bool` as a subtype of `int`
(`True == 1`). -/
def PyVal.toNum : PyVal → Option Int
  | .pbool b => some (if b then 1 else 0)
  | .pint n => some n
  | _ => Option.none

mutual

/-- Structural equality of values (used below for Python `==`). -/
def PyVal.beq : PyVal → PyVal → Bool
  | .pnone, .pnone => true
  | .pbool a, .pbool b => a == b
  | .pint a, .pint b => a == b
  | .pstr a, .pstr b => a == b
  | .plist a, .plist b => PyVal.beqL a b
  | .pdict a, .pdict b => PyVal.beqD a b
  | _, _ => false

/-- Structural equality of value lists. -/
def PyVal.beqL : List PyVal → List PyVal → Bool
  | [], [] => true
  | x :: xs, y :: ys => PyVal.beq x y && PyVal.beqL xs ys
  | _, _ => false

/-- Structural equality of dict fields. -/
def PyVal.beqD : List (String × PyVal) → List (String × PyVal) → Bool
  | [], [] => true
  | (k, v) :: xs, (k2, v2) :: ys => k == k2 && PyVal.beq v v2 && PyVal.beqD xs ys
  | _, _ => false

end

/-- Python `==` on configuration values.  Numbers (`int`/`bool`) compare by
numeric value; other values compare structurally.  (Inside containers the
comparison is structural: the scalar values appearing in this system's
configuration make the two notions agree.) -/
def pyEq (a b : PyVal) : Bool :=
  match a.toNum, b.toNum with
  | some x, some y => x == y
  | _, _ => PyVal.beq a b

/-- An ordered Python dict (the representation keeps keys unique). -/
abbrev PyDict := List (String × PyVal)

/-- Python `d.get(k)`: the value stored at `k`, or `None` when the key is
absent.  (`dict.get` with no default returns `None`.) -/
def dgetv (d : PyDict) (k : String) : PyVal :=
  match d.find? (fun p => p.1 == k) with
  | some p => p.2
  | Option.none => PyVal.pnone

/-- Python `k in d` for a dict. -/
def dhas (d : PyDict) (k : String) : Bool :=
  d.any (fun p => p.1 == k)

/-!
## ConfigResolver: `upsert_by_id` and `checkParams` (Controller.py 472-606)

`upsert_by_id(config_list, new_entry)` walks the list and replaces the first
entry whose `entry.get('id')` equals `new_entry.get('id')`, else appends.  The
Python method mutates `config_list` in place; the embedding returns the
resulting list.
-/

/-- `Controller.upsert_by_id` (Controller.py 588-606). -/
def upsert_by_id : List PyDict → PyDict → List PyDict
  | [], new_entry => [new_entry]
  | entry :: rest, new_entry =>
    if pyEq (dgetv entry "id") (dgetv new_entry "id") then
      new_entry :: rest
    else
      entry :: upsert_by_id rest new_entry

/-- A devfile's parsed contents: its `devices` collection and the flattened
`general` section (Controller.py 507-548). -/
structure DevFile where
  devices : List PyDict
  general : PyDict
deriving Repr

/-- The device-list part of `checkParams` (Controller.py 486-498): when the
`devfile` parameter is set (a non-empty string is truthy) the devlist becomes
the file's `devices` collection and the `devlist` parameter is never consulted
(`elif`); when only `devlist` is set, its parsed object is upserted into the
previously held device list (`self.devlist`, initially `[]`); when neither is
set, resolution fails.  File reading/parsing is external; the parsed `DevFile`
stands for the file named by the parameter. -/
def checkParamsDevices (devfileParam : Option DevFile) (devlistParam : Option PyDict)
    (prevDevlist : List PyDict) : Option (List PyDict) :=
  match devfileParam with
  | some f => some f.devices
  | Option.none =>
    match devlistParam with
    | some d => some (upsert_by_id prevDevlist d)
    | Option.none => Option.none

/-!
## Connection-parameter coercion: `_get_str` / `_get_int` (Controller.py 609-695)

Both helpers are declared `def _get_str(*args)` with no `self` slot, so the
bound-method call packs the `Controller` instance as the first vararg; the
instance is neither an `int` nor a `str`, the loop skips it, and only the
explicitly passed candidates matter — the embedding takes that candidate list.
`Parameters.get`/`dict.get` yield `None` for absent keys, embedded as
`PyVal.pnone`.
-/

/-- Python `isinstance(v, int)` — `True` for `bool` as well (a subclass). -/
def isInstanceInt : PyVal → Bool
  | .pint _ => true
  | .pbool _ => true
  | _ => false

/-- Python `str.isdigit` restricted to the ASCII configuration strings this
system uses: non-empty and every character a decimal digit. -/
def pyIsdigit (s : String) : Bool :=
  s ≠ "" && s.data.all Char.isDigit

/-- Python `int(s)` for a string of decimal digits. -/
def strToNum (s : String) : Int :=
  s.data.foldl (fun n c => 10 * n + (c.toNat - '0'.toNat)) 0

/-- `Controller._get_int` (Controller.py 677-695): the first argument that is
an `int`, or a string of digits (converted); `None` otherwise. -/
def get_int : List PyVal → Option PyVal
  | [] => Option.none
  | v :: vs =>
    if isInstanceInt v then some v
    else
      match v with
      | .pstr s => if pyIsdigit s then some (.pint (strToNum s)) else get_int vs
      | _ => get_int vs

/-- `Controller._get_str` (Controller.py 660-675): the first argument that is a
string. -/
def get_str : List PyVal → Option PyVal
  | [] => Option.none
  | v :: vs =>
    match v with
    | .pstr _ => some v
    | _ => get_str vs

/-- An argument qualifies for `_get_int` when it is an integer or a string of
decimal digits. -/
def intQualifies (v : PyVal) : Bool :=
  isInstanceInt v ||
    (match v with
     | .pstr s => pyIsdigit s
     | _ => false)

/-- The value `_get_int` produces from a qualifying argument (digit strings are
converted by `int(val)`). -/
def intConvert (v : PyVal) : PyVal :=
  match v with
  | .pstr s => .pint (strToNum s)
  | _ => v

/-- The `mqtt_port` line of `_load_mqtt_parameters` (Controller.py 630-634):
`_get_int(Parameters.get("mqtt_port"), general.get("mqtt_port"),
DEFAULT_CONFIG.get("mqtt_port"))` with the compiled default `1884`
(Controller.py 30-37). -/
def mqtt_port_resolved (paramVal generalVal : PyVal) : Option PyVal :=
  get_int [paramVal, generalVal, .pint 1884]

/-!
## TopicRegistry: address derivation (Controller.py 1289-1310)

`_format_device_address` first applies the legacy normalization
`dev["id"].replace("_", "").replace("-", "_")` and then
`self.poly.getValidAddress(name)`.  `getValidAddress` belongs to the host
platform (`udi_interface`, outside this repository); Controller.py quotes its
body verbatim in the comment at lines 1303-1306 and the embedding follows that
quotation / the specification: lowercase, delete the disallowed characters,
truncate to 14.
-/

/-- Left-to-right, non-overlapping replacement of `pat` by `rep` on character
lists (the semantics of Python `str.replace` for a non-empty pattern).  The
`fuel` argument keeps the recursion structural; each step consumes at least
one character, so `fuel = length` is always enough. -/
def replaceGo (pat rep : List Char) : Nat → List Char → List Char
  | _, [] => []
  | 0, l => l
  | fuel + 1, c :: rest =>
    if pat ≠ [] ∧ pat.isPrefixOf (c :: rest) then
      rep ++ replaceGo pat rep fuel ((c :: rest).drop pat.length)
    else
      c :: replaceGo pat rep fuel rest

/-- Python `s.replace(pat, rep)` (non-empty `pat`; no call site uses an empty
pattern). -/
def pyStrReplace (s pat rep : String) : String :=
  String.mk (replaceGo pat.data rep.data s.data.length s.data)

/-- The characters deleted by `getValidAddress`'s regular expression
class (quoted at Controller.py 1306): all of
``<>`~!@#$%^&*()\x7b\x7d[]?/\;:"'-``.  Note `_` is not among them. -/
def addressBadChars : List Char :=
  ['<', '>', '`', '~', '!', '@', '#', '$', '%', '^', '&', '*', '(', ')',
   '\x7b', '\x7d', '[', ']', '?', '/', '\\', ';', ':', '"', '\'', '-']

/-- Modelled from the spec: the host platform's `getValidAddress` (quoted at
Controller.py 1303-1306; the platform's own source is not part of this
repository): lowercase the name, delete the disallowed characters, and
truncate to the 14-character address limit. -/
def getValidAddress (name : String) : String :=
  String.mk ((((name.data.map Char.toLower).filter
    (fun c => decide (c ∉ addressBadChars)))).take 14)

/-- `Controller._format_device_address` applied to the device's `id`
(Controller.py 1289-1310): underscores removed, hyphens turned into
underscores, then the platform's sanitization. -/
def format_device_address (devIdent : String) : String :=
  getValidAddress (pyStrReplace (pyStrReplace devIdent "_" "") "-" "_")

/-!
## TopicRegistry: topic constants, `DEVICE_CONFIG` and normalization
(Controller.py 39-87, 920-994)
-/

def STATUS_TOPIC_PFX : String := "stat/"
def TELE_TOPIC_PFX : String := "tele/"
def RESULT_TOPIC_SFX : String := "/RESULT"
def STATUS10_TOPIC_SFX : String := "/STATUS10"

/-- Python `s.rsplit('/', 1)[0]`: everything before the last `/`, or the whole
string when it contains no `/`. -/
def rsplitBase (s : String) : String :=
  if s.data.contains '/' then
    String.mk (((s.data.reverse.dropWhile (fun c => c ≠ '/')).drop 1).reverse)
  else s

/-- The value a `status_topics` descriptor lambda produces: shellyflood's
lambda returns `dev["status_topic"]` itself (a string in the modelled
configuration space), the ratgdo lambda returns a list. -/
inductive StrOrList where
  | ofStr (s : String)
  | ofList (xs : List String)
deriving Repr, DecidableEq

/-- Python `for raw_topic in status_topics`: iterating a list yields its
elements; iterating a string yields its one-character substrings. -/
def iterTopics : StrOrList → List String
  | .ofStr s => s.data.map (fun c => String.mk [c])
  | .ofList xs => xs

/-- One `DEVICE_CONFIG` descriptor: the optional `status_topics` and
`extra_status_topics` lambdas (each applied to the device's `status_topic`,
the only field the source lambdas read).  The `node_class` field only names
the handler constructor and is not needed here. -/
structure DevTypeConfig where
  status_topics : Option (String → StrOrList)
  extra_status_topics : Option (String → List String)

/-- The `extra_status_topics` expression shared by the `TempHumid`, `Temp`,
`TempHumidPress` and `analog` entries (Controller.py 60-77), kept verbatim:
`dev['status_topic'].rsplit('/', 1)[0] +
STATUS10_TOPIC_SUFFIX.replace(TELE_TOPIC_PREFIX, STATUS_TOPIC_PREFIX)`
— the `.replace` is applied to the constant suffix `"/STATUS10"`. -/
def status10Extra (st : String) : List String :=
  [rsplitBase st ++ pyStrReplace STATUS10_TOPIC_SFX TELE_TOPIC_PFX STATUS_TOPIC_PFX]

/-- `DEVICE_CONFIG` (Controller.py 53-87) as a map from the `type` string to
its descriptor; `None` for unsupported types (`DEVICE_CONFIG.get`). -/
def DEVICE_CONFIG : String → Option DevTypeConfig
  | "switch" => some ⟨Option.none, Option.none⟩
  | "dimmer" => some ⟨Option.none, some (fun st => [rsplitBase st ++ RESULT_TOPIC_SFX])⟩
  | "ifan" => some ⟨Option.none, Option.none⟩
  | "sensor" => some ⟨Option.none, Option.none⟩
  | "flag" => some ⟨Option.none, Option.none⟩
  | "TempHumid" => some ⟨Option.none, some status10Extra⟩
  | "Temp" => some ⟨Option.none, some status10Extra⟩
  | "TempHumidPress" => some ⟨Option.none, some status10Extra⟩
  | "distance" => some ⟨Option.none, Option.none⟩
  | "shellyflood" => some ⟨some (fun st => .ofStr st), Option.none⟩
  | "analog" => some ⟨Option.none, some status10Extra⟩
  | "s31" => some ⟨Option.none, Option.none⟩
  | "raw" => some ⟨Option.none, Option.none⟩
  | "RGBW" => some ⟨Option.none, Option.none⟩
  | "ratgdo" => some ⟨some (fun st => .ofList
      [st ++ "/status/availability", st ++ "/status/light", st ++ "/status/door",
       st ++ "/status/motion", st ++ "/status/lock", st ++ "/status/obstruction"]),
      Option.none⟩
  | _ => Option.none

/-- The extra status topics `_add_device_status_topics` derives for a device
type from its (already normalized) `status_topic` (Controller.py 946-952). -/
def extraStatusTopicsFor (devType st : String) : List String :=
  match DEVICE_CONFIG devType with
  | some cfg =>
    match cfg.extra_status_topics with
    | some f => f st
    | Option.none => []
  | Option.none => []

/-- `Controller._normalize_topic` (Controller.py 976-994): `None` becomes `""`;
a leading `~` is replaced by the prefix when one is configured; otherwise the
topic is returned unchanged. -/
def normalize_topic (topic : Option String) (pfx : Option String) : String :=
  match topic with
  | Option.none => ""
  | some t =>
    match pfx, t.data with
    | some p, '~' :: rest => String.mk (p.data ++ rest)
    | _, _ => t

/-!
## DiscoveryReconciler state machine (Controller.py 764-1037)

The controller's mutable fields and the host platform's node registry become an
explicit state.  The modelled configuration space is YAML/JSON device maps
whose required fields are string scalars (an absent field is `Option.none`);
extra pass-through keys do not influence any modelled operation.  Host-platform
operations are modelled from the spec: `getNodes` returns a snapshot of the
registered addresses, `addNode` requests creation and the
creation-acknowledgment (`ADDNODEDONE` → `node_queue` → `wait_for_node_done`)
registers the address, `delNode` removes it, the registry is keyed by address.
`addLog`/`delLog` instrument the create/remove requests issued to the
platform.
-/

/-- A device spec as the discovery walk reads it. -/
structure Dev where
  devId : Option String
  devType : Option String
  statusTopic : Option String
  cmdTopic : Option String
  sensorId : Option String
  devName : Option String
deriving Repr, DecidableEq

/-- The controller node's own id and address (`Controller.id = 'mqctrl'`,
Controller.py 123; mqtt-poly.py line 120 creates the node with that same
string as its address). -/
def ctrl_node_id : String := "mqctrl"

/-- The controller's registry state: the discovery flag, device directory,
subscribed-topic list, the topic→address index, the node-count summary, and
the resolved topic prefixes. -/
structure Ctrl where
  discovery_in : Bool
  devlist : List Dev
  status_topics : List String
  topics_to_devices : List (String × String)
  numNodes : Nat
  statusPfx : Option String
  cmdPfx : Option String
deriving Repr, DecidableEq

/-- Controller state plus the host platform's node registry and the
instrumented request logs. -/
structure DState where
  ctrl : Ctrl
  polyNodes : List String
  addLog : List String
  delLog : List String
deriving Repr, DecidableEq

/-- Python dict assignment `d[k] = v` on the topic→address index: overwrite in
place when the key exists, else append. -/
def dictSet (d : List (String × String)) (k v : String) : List (String × String) :=
  if d.any (fun p => p.1 == k) then
    d.map (fun p => if p.1 == k then (k, v) else p)
  else d ++ [(k, v)]

/-- `Controller._validate_device_definition` (Controller.py 859-875):
`required_fields = ["id", "status_topic", "cmd_topic", "type"]` must all be
present. -/
def validate_device_definition (d : Dev) : Bool :=
  d.devId.isSome && d.statusTopic.isSome && d.cmdTopic.isSome && d.devType.isSome

/-- `_format_device_address(dev)` reads `dev["id"]`; every call site runs
after validation, so the id is present. -/
def format_device_address_dev (d : Dev) : String :=
  format_device_address (d.devId.getD "")

/-- Whether `dev["type"]` is in `DEVICE_CONFIG` (Controller.py 896-898). -/
def supportedType (d : Dev) : Bool :=
  (DEVICE_CONFIG (d.devType.getD "")).isSome

/-- `Controller._add_status_topics` (Controller.py 955-973): normalize each
topic, append it to the subscription list and map it to the device address. -/
def add_status_topics (c : Ctrl) (d : Dev) (topics : List String) : Ctrl :=
  let device_address := format_device_address_dev d
  topics.foldl
    (fun c t =>
      let status_topic := normalize_topic (some t) c.statusPfx
      { c with
        status_topics := c.status_topics ++ [status_topic],
        topics_to_devices := dictSet c.topics_to_devices status_topic device_address })
    c

/-- `Controller._add_device_status_topics` (Controller.py 920-952): primary
topics from the type's `status_topics` descriptor (default: the single
`status_topic`), then the `extra_status_topics` when configured.  (The
`dev['extra_status_topic']` assignment at line 950 only feeds logging and is
not tracked.) -/
def add_device_status_topics (c : Ctrl) (d : Dev) : Ctrl :=
  let cfg := (DEVICE_CONFIG (d.devType.getD "")).getD ⟨Option.none, Option.none⟩
  let st := d.statusTopic.getD ""
  let c1 :=
    match cfg.status_topics with
    | some f => add_status_topics c d (iterTopics (f st))
    | Option.none => add_status_topics c d [st]
  match cfg.extra_status_topics with
  | some f => add_status_topics c1 d (f st)
  | Option.none => c1

/-- The platform registers a created node under its address (registry keyed by
address). -/
def addNodeAck (nodes : List String) (a : String) : List String :=
  if nodes.contains a then nodes else nodes ++ [a]

/-- The supported-type branch of `Controller._create_device_node`
(Controller.py 878-917) followed by `wait_for_node_done`: normalize the
primary status and command topics, derive and bind the status topics, request
node creation and wait for the acknowledgment. -/
def createNode (s : DState) (d : Dev) : DState :=
  let d2 := { d with
    statusTopic := some (normalize_topic d.statusTopic s.ctrl.statusPfx),
    cmdTopic := some (normalize_topic d.cmdTopic s.ctrl.cmdPfx) }
  let addr := format_device_address_dev d2
  { s with
    ctrl := add_device_status_topics s.ctrl d2,
    addLog := s.addLog ++ [addr],
    polyNodes := addNodeAck s.polyNodes addr }

/-- The `for dev in self.devlist` walk of `Controller._discover_nodes`
(Controller.py 843-854): skip invalid devices; compute the address; devices
whose address is already in the `nodes_existing` snapshot are recorded in
`nodes_new` without creation; otherwise create (skipping unsupported types)
and record.  Returns the final state and `nodes_new`. -/
def discover_nodes_loop (snap : List String) : DState → List Dev → DState × List String
  | s, [] => (s, [])
  | s, d :: ds =>
    if validate_device_definition d then
      let addr := format_device_address_dev d
      if snap.contains addr then
        let r := discover_nodes_loop snap s ds
        (r.1, addr :: r.2)
      else if supportedType d then
        let r := discover_nodes_loop snap (createNode s d) ds
        (r.1, addr :: r.2)
      else
        discover_nodes_loop snap s ds
    else discover_nodes_loop snap s ds

/-- A host-platform node object (opaque `DeviceHandle`). -/
inductive NodeRef where
  | handle (address : String)
deriving Repr, DecidableEq

/-- `self.poly.getNode(address)` — yields the opaque node object. -/
def getNodeRef (a : String) : NodeRef := .handle a

/-- Python `==` between a `str` (a topic-index value, i.e. a device address)
and a `udi_interface` node object: neither side defines a cross-type
`__eq__`, so the comparison is always `False`. -/
def strEqNode (_s : String) (_n : NodeRef) : Bool := false

/-- `Controller._remove_status_topics` (Controller.py 1020-1037): walk the
topic→address index and, for every binding whose value equals
`self.poly.getNode(node)`, drop the topic from the subscription list
(`list.remove`, first occurrence) and pop it from the index.  The comparison
pits an address string against the node object, so no binding ever matches.
(Had it ever matched, popping while iterating the dict would raise a
`RuntimeError`.) -/
def remove_status_topics (c : Ctrl) (node : String) : Ctrl :=
  c.topics_to_devices.foldl
    (fun acc p =>
      if strEqNode p.2 (getNodeRef node) then
        { acc with
          status_topics := acc.status_topics.erase p.1,
          topics_to_devices := acc.topics_to_devices.eraseP (fun q => q.1 == p.1) }
      else acc)
    c

/-- `Controller._cleanup_nodes` (Controller.py 997-1017): every old node not
in `nodes_new` has its status topics removed and its node deleted — and the
loop body also clears `self.discovery_in` (line 1015). -/
def cleanup_loop (nodesNew : List String) : DState → List String → DState
  | s, [] => s
  | s, n :: ns =>
    if nodesNew.contains n then cleanup_loop nodesNew s ns
    else
      let c := remove_status_topics s.ctrl n
      cleanup_loop nodesNew
        { s with
          ctrl := { c with discovery_in := false },
          polyNodes := s.polyNodes.erase n,
          delLog := s.delLog ++ [n] }
        ns

/-- The front half of `Controller._discover` (Controller.py 799-818): snapshot
the existing nodes, compute `nodes_old` (everything but the controller
itself), set the discovery flag (`_discover_nodes` line 842) and walk the
device list.  Returns the state after `_discover_nodes`, `nodes_new`, and
`nodes_old`. -/
def discoverPhase1 (s : DState) : DState × List String × List String :=
  let snap := s.polyNodes
  let old := snap.filter (fun n => n ≠ ctrl_node_id)
  let s1 := { s with ctrl := { s.ctrl with discovery_in := true } }
  let r := discover_nodes_loop snap s1 s1.ctrl.devlist
  (r.1, r.2, old)

/-- `_discover` up to and including `_cleanup_nodes` (Controller.py 818). -/
def cleanupPhase (s : DState) : DState × List String :=
  let r := discoverPhase1 s
  (cleanup_loop r.2.1 r.1 r.2.2, r.2.1)

/-- The tail of `_discover` (Controller.py 819-825): `numNodes =
len(nodes_new)` published via `setDriver('GV0', ...)`; within the modelled
configuration space no step raises, so the walk always succeeds. -/
def finishPhase (p : DState × List String) : DState :=
  { p.1 with ctrl := { p.1.ctrl with numNodes := p.2.length } }

/-- `Controller._discover` (Controller.py 799-825). -/
def discoverF (s : DState) : DState × Bool :=
  (finishPhase (cleanupPhase s), true)

/-- The resolved configuration a reconciliation run applies: the parsed device
collection (`checkParams` / `checkParamsDevices`) and the topic prefixes
(resolved by `_load_mqtt_parameters` from the unchanged parameters via
`_get_str`, hence identical across runs of an unchanged configuration). -/
structure Config where
  devices : List Dev
  statusPfx : Option String
  cmdPfx : Option String
deriving Repr, DecidableEq

/-- The state mutation `checkParams` performs (Controller.py 472-657): the
device directory is rebuilt from the configuration sources and the MQTT/topic
parameters are (re)resolved.  Parse failures return before mutating registry
state and `discover_cmd` then skips `_discover`; the embedding models the
successfully-parsing configurations the claims quantify over. -/
def applyCheckParams (s : DState) (cfg : Config) : DState :=
  { s with ctrl := { s.ctrl with
      devlist := cfg.devices,
      statusPfx := cfg.statusPfx,
      cmdPfx := cfg.cmdPfx } }

/-- `Controller.discover_cmd` (Controller.py 764-796): reject re-entrant
invocation while `discovery_in` is set; otherwise set the flag, resolve the
configuration, run `_discover`, clear the flag and report success. -/
def discover_cmd (s : DState) (cfg : Config) : DState × Bool :=
  if s.ctrl.discovery_in then (s, false)
  else
    let s1 := { s with ctrl := { s.ctrl with discovery_in := true } }
    let s2 := applyCheckParams s1 cfg
    let r := discoverF s2
    ({ r.1 with ctrl := { r.1.ctrl with discovery_in := false } }, r.2)

/-- The gate at the top of `Controller._on_message` (Controller.py 1108-1109):
an inbound MQTT message is dropped exactly when `discovery_in` is set. -/
def on_message_drops (c : Ctrl) : Bool :=
  c.discovery_in

/-- Reset the instrumentation logs (the logs observe one run's requests). -/
def clearLogs (s : DState) : DState :=
  { s with addLog := [], delLog := [] }

/-!
## MessageRouter (Controller.py 1089-1286)

`_on_message` → `_process_json_message` / `_process_plain_text_message` →
`_process_sensor_data` → `_route_message_to_device`.  JSON decoding is the
standard library's; the embedding takes the decoded object.  Routing outcomes:
`dispatched a` (the node at address `a` received `updateInfo`), `noDevice`
(lookup yielded nothing, logged and dropped), `errorDropped` (an exception was
raised and caught by `_route_message_to_device`'s or `_on_message`'s handler,
message dropped).
-/

/-- Python truthiness of a configuration value. -/
def pyTruthy : PyVal → Bool
  | .pnone => false
  | .pbool b => b
  | .pint n => n != 0
  | .pstr s => s ≠ ""
  | .plist xs => !xs.isEmpty
  | .pdict xs => !xs.isEmpty

/-- Python `needle in hay` on character lists (substring test; an empty
needle is contained in everything). -/
def isSubstrChars (n : List Char) : List Char → Bool
  | [] => n.isEmpty
  | c :: t => n.isPrefixOf (c :: t) || isSubstrChars n t

/-- Python `needle in hay` for strings. -/
def isSubstr (needle hay : String) : Bool :=
  isSubstrChars needle.data hay.data

/-- Python `s.split('/')` (no limit): `rsplit` without a limit gives the same
list. -/
def splitSlashChars : List Char → List (List Char)
  | [] => [[]]
  | c :: rest =>
    if c = '/' then [] :: splitSlashChars rest
    else
      match splitSlashChars rest with
      | [] => [[c]]
      | g :: gs => (c :: g) :: gs

/-- Python `topic.rsplit('/')` as a list of strings. -/
def pySplitSlash (s : String) : List String :=
  (splitSlashChars s.data).map String.mk

/-- `Controller._dev_by_topic` (Controller.py 1233-1247): the topic→address
index lookup (`dict.get`, `None` when unbound). -/
def dev_by_topic (c : Ctrl) (topic : String) : Option String :=
  (c.topics_to_devices.find? (fun p => p.1 == topic)).map (fun p => p.2)

/-- The `for device in self.devlist` scan of
`_get_device_address_from_sensor_id` (Controller.py 1273-1280).  The loop
condition is `'sensor_id' in device and topic_part in device['status_topic']
and sensor_type in device['sensor_id']`; reading a missing `status_topic`
raises `KeyError`, and `sensor_type in <str>` raises `TypeError` when the
extracted "sensor" is not a string (e.g. the embedded `ANALOG` object); a
raised error is propagated (`Except.error`). -/
def scanSensorDevices (tp : String) (sensorType : PyVal) :
    List Dev → Except Unit (Option String)
  | [] => .ok Option.none
  | d :: ds =>
    match d.sensorId with
    | Option.none => scanSensorDevices tp sensorType ds
    | some sid =>
      match d.statusTopic with
      | Option.none => .error ()
      | some st =>
        if isSubstr tp st then
          match sensorType with
          | .pstr sv =>
            if isSubstr sv sid then
              match d.devId with
              | some _ => .ok (some (format_device_address_dev d))
              | Option.none => .error ()
            else scanSensorDevices tp sensorType ds
          | _ => .error ()
        else scanSensorDevices tp sensorType ds

/-- `Controller._get_device_address_from_sensor_id` (Controller.py 1250-1286):
`topic_part = topic.rsplit('/')[1]` (an `IndexError` when the topic has fewer
than two segments propagates), then the devlist scan, then the fallback to the
plain topic lookup. -/
def get_device_address_from_sensor_id (c : Ctrl) (topic : String) (sensorType : PyVal) :
    Except Unit (Option String) :=
  match (pySplitSlash topic).get? 1 with
  | Option.none => .error ()
  | some tp =>
    match scanSensorDevices tp sensorType c.devlist with
    | .error e => .error e
    | .ok (some a) => .ok (some a)
    | .ok Option.none => .ok (dev_by_topic c topic)

/-- How a routed message ends. -/
inductive RouteOutcome where
  | dispatched (addr : String)
  | noDevice
  | errorDropped
deriving Repr, DecidableEq

/-- `Controller._route_message_to_device` (Controller.py 1211-1230): resolve
via the sensor id when a truthy `sensor` was passed, else via the topic index;
dispatch `updateInfo` to `poly.getNode(address)` when an address resolved
(`getNode` yields `None` — and the call raises, caught here — when the address
is not registered); any exception is caught and the message dropped. -/
def route_message_to_device (s : DState) (topic : String) (sensor : Option PyVal) :
    RouteOutcome :=
  let useSensor := match sensor with
    | some sv => pyTruthy sv
    | Option.none => false
  let addrE : Except Unit (Option String) :=
    match sensor, useSensor with
    | some sv, true => get_device_address_from_sensor_id s.ctrl topic sv
    | _, _ => .ok (dev_by_topic s.ctrl topic)
  match addrE with
  | .error _ => .errorDropped
  | .ok Option.none => .noDevice
  | .ok (some addr) =>
    if addr = "" then .noDevice
    else if s.polyNodes.contains addr then .dispatched addr
    else .errorDropped

/-- `SENSOR_PROCESSORS` (Controller.py 45-50), in dict order. -/
def SENSOR_PROCESSORS : List String :=
  ["ANALOG", "DS18B20", "AM2301", "BME280"]

/-- `Controller._extract_sensors` (Controller.py 1184-1197): for `ANALOG` the
entry's value itself (wrapped in a list unless it already is one); for the
other sensor classes the keys containing the class name. -/
def extract_sensors (data : PyDict) (sensorType : String) : List PyVal :=
  if sensorType == "ANALOG" then
    match dgetv data sensorType with
    | .plist xs => xs
    | v => [v]
  else
    (data.filter (fun p => isSubstr sensorType p.1)).map (fun p => .pstr p.1)

/-- `Controller._process_sensor_data` (Controller.py 1163-1181): the first
`SENSOR_PROCESSORS` key present in the payload selects the sensor class; each
extracted sensor is routed; `None` when no sensor class is present. -/
def process_sensor_data (s : DState) (topic : String) (data : PyDict) :
    Option (List RouteOutcome) :=
  match SENSOR_PROCESSORS.find? (fun k => dhas data k) with
  | some k =>
    some ((extract_sensors data k).map (fun sv => route_message_to_device s topic (some sv)))
  | Option.none => Option.none

/-- `Controller._process_json_message` (Controller.py 1141-1160): unwrap a
`StatusSNS` envelope (when its value is not a dict the later `in` test raises
and `_on_message`'s handler drops the message), try the sensor path, else
route once by topic. -/
def process_json_message (s : DState) (topic : String) (data : PyDict) :
    List RouteOutcome :=
  let dataU : Option PyDict :=
    if dhas data "StatusSNS" then
      match dgetv data "StatusSNS" with
      | .pdict d2 => some d2
      | _ => Option.none
    else some data
  match dataU with
  | Option.none => [.errorDropped]
  | some d2 =>
    match process_sensor_data s topic d2 with
    | some outs => outs
    | Option.none => [route_message_to_device s topic Option.none]

/-!
## Concrete scenario fixtures used by the claim theorems
-/

/-- A devfile directory `[{id:"a"},{id:"b"}]`. -/
def c1devfile : DevFile :=
  ⟨[[("id", .pstr "a")], [("id", .pstr "b")]], []⟩

/-- A devlist override `{id:"a", extra:1}`. -/
def c1override : PyDict :=
  [("id", .pstr "a"), ("extra", .pint 1)]

/-- A state holding one stale node `olddev` with one topic binding. -/
def c2start : DState :=
  { ctrl := { discovery_in := false, devlist := [],
              status_topics := ["stat/old/POWER"],
              topics_to_devices := [("stat/old/POWER", "olddev")],
              numNodes := 1, statusPfx := Option.none, cmdPfx := Option.none },
    polyNodes := ["mqctrl", "olddev"], addLog := [], delLog := [] }

/-- A switch device spec. -/
def c2deva : Dev :=
  { devId := some "deva", devType := some "switch",
    statusTopic := some "stat/deva/POWER", cmdTopic := some "cmnd/deva/POWER",
    sensorId := Option.none, devName := Option.none }

/-- A configuration no longer containing `olddev`. -/
def c2cfg : Config :=
  { devices := [c2deva], statusPfx := Option.none, cmdPfx := Option.none }

/-- A state holding a node `gonedev` that is about to disappear from the
configuration. -/
def c4start : DState :=
  { ctrl := { discovery_in := false, devlist := [], status_topics := [],
              topics_to_devices := [], numNodes := 0,
              statusPfx := Option.none, cmdPfx := Option.none },
    polyNodes := ["mqctrl", "gonedev"], addLog := [], delLog := [] }

/-- A switch device spec. -/
def c4dev : Dev :=
  { devId := some "newdev", devType := some "switch",
    statusTopic := some "stat/newdev/POWER", cmdTopic := some "cmnd/newdev/POWER",
    sensorId := Option.none, devName := Option.none }

/-- A configuration no longer containing `gonedev`. -/
def c4cfg : Config :=
  { devices := [c4dev], statusPfx := Option.none, cmdPfx := Option.none }

/-- The state of the accepted run right after `applyCheckParams` (the flag is
set, the configuration loaded). -/
def c4s2 : DState :=
  applyCheckParams { c4start with ctrl := { c4start.ctrl with discovery_in := true } } c4cfg

/-- The run's intermediate state right after `_cleanup_nodes` returns —
`_discover`'s node-count update and `discover_cmd`'s final flag-clear are
still pending. -/
def c4mid : DState :=
  (cleanupPhase c4s2).1

/-- The run's `nodes_new` at that same point. -/
def c4new : List String :=
  (cleanupPhase c4s2).2

/-- A fresh state: only the controller node exists. -/
def c6s0 : DState :=
  { ctrl := { discovery_in := false, devlist := [], status_topics := [],
              topics_to_devices := [], numNodes := 0,
              statusPfx := Option.none, cmdPfx := Option.none },
    polyNodes := ["mqctrl"], addLog := [], delLog := [] }

/-- A device of an unsupported type whose id collides with `c6switch`. -/
def c6bogus : Dev :=
  { devId := some "a", devType := some "bogus",
    statusTopic := some "tele/a/SENSOR", cmdTopic := some "cmnd/a/POWER",
    sensorId := Option.none, devName := Option.none }

/-- A switch device spec with id `a`. -/
def c6switch : Dev :=
  { devId := some "a", devType := some "switch",
    statusTopic := some "stat/a/POWER", cmdTopic := some "cmnd/a/POWER",
    sensorId := Option.none, devName := Option.none }

/-- A configuration with two specs deriving the same address. -/
def c6cfg : Config :=
  { devices := [c6bogus, c6switch], statusPfx := Option.none, cmdPfx := Option.none }

/-- A configuration with a single switch device (for the idempotence
witness). -/
def c6wcfg : Config :=
  { devices := [c6switch], statusPfx := Option.none, cmdPfx := Option.none }

/-- A state in which a reconciliation run is in progress. -/
def c7busy : DState :=
  { ctrl := { discovery_in := true, devlist := [], status_topics := [],
              topics_to_devices := [], numNodes := 0,
              statusPfx := Option.none, cmdPfx := Option.none },
    polyNodes := ["mqctrl"], addLog := [], delLog := [] }

/-- Any configuration (for the re-entrancy witness). -/
def c7cfg : Config :=
  { devices := [], statusPfx := Option.none, cmdPfx := Option.none }

/-- An analog device owning topic `tele/dev1/SENSOR`, declaring
`sensor_id: "A2"`. -/
def c8dev : Dev :=
  { devId := some "other", devType := some "analog",
    statusTopic := some "tele/dev1/SENSOR", cmdTopic := some "cmnd/dev1/POWER",
    sensorId := some "A2", devName := Option.none }

/-- A quiescent state with `c8dev` configured, its node created, and its topic
bound. -/
def c8state : DState :=
  { ctrl := { discovery_in := false, devlist := [c8dev],
              status_topics := ["tele/dev1/SENSOR"],
              topics_to_devices := [("tele/dev1/SENSOR", "other")],
              numNodes := 1, statusPfx := Option.none, cmdPfx := Option.none },
    polyNodes := ["mqctrl", "other"], addLog := [], delLog := [] }

/-- The decoded payload `{"ANALOG": {"A1": 42}}`. -/
def c8data : PyDict :=
  [("ANALOG", .pdict [("A1", .pint 42)])]

/-!
## Proof-layer characterizations of the reconciliation walk

These definitions are not part of the embedding; they name the conditions the
`_discover_nodes` walk evaluates, for use in the reconciliation lemmas below.
-/

/-- The walk records a device in `nodes_new` iff it is valid and its address
is already known or its type is supported. -/
def devAppended (snap : List String) (d : Dev) : Bool :=
  validate_device_definition d &&
    (snap.contains (format_device_address_dev d) || supportedType d)

/-- The walk creates a node for a device iff it is valid, its address is new,
and its type is supported. -/
def devCreated (snap : List String) (d : Dev) : Bool :=
  validate_device_definition d &&
    !snap.contains (format_device_address_dev d) && supportedType d

/-- The `nodes_new` list the walk produces. -/
def newList (snap : List String) (ds : List Dev) : List String :=
  ds.filterMap
    (fun d => if devAppended snap d then some (format_device_address_dev d) else Option.none)

/-- The devices the walk creates nodes for, in order. -/
def createdDevs (snap : List String) (ds : List Dev) : List Dev :=
  ds.filter (devCreated snap)

/-- Two controller states agreeing on everything except the topic
structures. -/
def sameNonTopic (c c2 : Ctrl) : Prop :=
  c2.discovery_in = c.discovery_in ∧ c2.devlist = c.devlist ∧
  c2.numNodes = c.numNodes ∧ c2.statusPfx = c.statusPfx ∧ c2.cmdPfx = c.cmdPfx

/-- The state of an accepted run after the flag is set and the configuration
loaded. -/
def runStart (s : DState) (cfg : Config) : DState :=
  applyCheckParams { s with ctrl := { s.ctrl with discovery_in := true } } cfg

/-- The final state of an accepted `discover_cmd` run. -/
def runResult (s : DState) (cfg : Config) : DState :=
  { (discoverF (runStart s cfg)).1 with
    ctrl := { (discoverF (runStart s cfg)).1.ctrl with discovery_in := false } }

/-!
## Claim theorems
-/

/-- C1 — `checkParams` never layers the devlist over the devfile: resolving
with both a devfile `[{id:"a"},{id:"b"}]` and a devlist override
`{id:"a", extra:1}` configured yields the devfile directory verbatim — the
first entry has no `extra` key — because the `elif` at Controller.py 493 skips
`_load_devlist_config` whenever a devfile is set.  The upsert the claim (and
the code's own docstrings) describe would have produced
`[{id:"a", extra:1}, {id:"b"}]`, as the last two conjuncts show. -/
theorem c1_devlist_ignored_when_devfile_set :
    checkParamsDevices (some c1devfile) (some c1override) [] = some c1devfile.devices
    ∧ dhas (((checkParamsDevices (some c1devfile) (some c1override) []).getD []).headD []) "extra"
        = false
    ∧ upsert_by_id c1devfile.devices c1override =
        [[("id", .pstr "a"), ("extra", .pint 1)], [("id", .pstr "b")]]
    ∧ dhas ((upsert_by_id c1devfile.devices c1override).headD []) "extra" = true := by
  refine ⟨rfl, rfl, rfl, rfl⟩

/-- C2 — removing `olddev` from the configuration and reconciling deletes the
node (`delNode` is requested) but leaves `olddev`'s topic binding and its
subscription entry in place: `_remove_status_topics` compares the index's
address strings against the `poly.getNode(node)` object, which never matches,
so no binding is ever removed. -/
theorem c2_stale_bindings_survive_cleanup :
    (discover_cmd c2start c2cfg).1.delLog = ["olddev"]
    ∧ (discover_cmd c2start c2cfg).1.polyNodes = ["mqctrl", "deva"]
    ∧ (discover_cmd c2start c2cfg).1.ctrl.topics_to_devices =
        [("stat/old/POWER", "olddev"), ("stat/deva/POWER", "deva")]
    ∧ (discover_cmd c2start c2cfg).1.ctrl.status_topics =
        ["stat/old/POWER", "stat/deva/POWER"] := by
  refine ⟨by decide, by decide, by decide, by decide⟩

/-- C3 (as claimed) is false: the ids `"Kitchen_Light"` and `"Kitchen-Light"`
do not derive the same address — underscores are deleted but hyphens are first
rewritten to underscores, which survive the platform's sanitization. -/
theorem c3_counterexample_distinct_addresses :
    format_device_address "Kitchen_Light" = "kitchenlight"
    ∧ format_device_address "Kitchen-Light" = "kitchen_light"
    ∧ format_device_address "Kitchen_Light" ≠ format_device_address "Kitchen-Light" := by
  refine ⟨by decide, by decide, by decide⟩

/-- C3 (amended) — address derivation is a deterministic function of the
device id and its result is at most 14 characters for every id; the two
example ids derive the distinct addresses `"kitchenlight"` and
`"kitchen_light"`. -/
theorem c3_amended_address_derivation :
    (∀ devIdent : String, (format_device_address devIdent).length ≤ 14)
    ∧ (∀ a b : String, a = b → format_device_address a = format_device_address b)
    ∧ format_device_address "Kitchen_Light" = "kitchenlight"
    ∧ format_device_address "Kitchen-Light" = "kitchen_light" := by
  refine ⟨?_, ?_, by decide, by decide⟩
  · intro devIdent
    show (getValidAddress _).length ≤ 14
    unfold getValidAddress
    simp
  · intro a b h
    rw [h]

/-- C4 — the inbound-message gate does not hold for the whole reconciliation
run: with a stale node in the state, the run's intermediate state right after
`_cleanup_nodes` (while `_discover`'s node-count update and `discover_cmd`'s
completion are still pending, as the second conjunct certifies) already has
`discovery_in = False` — line 1015 clears the flag when a node is deleted —
so `_on_message` would route, not drop, a message arriving there. -/
theorem c4_messages_routed_before_run_returns :
    on_message_drops c4mid.ctrl = false
    ∧ discover_cmd c4start c4cfg =
        ({ finishPhase (c4mid, c4new) with
           ctrl := { (finishPhase (c4mid, c4new)).ctrl with discovery_in := false } }, true) := by
  refine ⟨by decide, by decide⟩

/-- C5 — for all four sensor classes the derived extra topic is the
status-topic base path followed by `/STATUS10` with NO `tele/` → `stat/`
rewrite: the `.replace` at Controller.py 61/64/66/77 is applied to the
constant suffix `"/STATUS10"`, which never contains `tele/`, so it is a no-op
and `"tele/x/SENSOR"` yields `"tele/x/STATUS10"`, not the claimed
`"stat/x/STATUS10"`. -/
theorem c5_status10_topic_keeps_tele :
    extraStatusTopicsFor "TempHumid" "tele/x/SENSOR" = ["tele/x/STATUS10"]
    ∧ extraStatusTopicsFor "Temp" "tele/x/SENSOR" = ["tele/x/STATUS10"]
    ∧ extraStatusTopicsFor "TempHumidPress" "tele/x/SENSOR" = ["tele/x/STATUS10"]
    ∧ extraStatusTopicsFor "analog" "tele/x/SENSOR" = ["tele/x/STATUS10"]
    ∧ pyStrReplace STATUS10_TOPIC_SFX TELE_TOPIC_PFX STATUS_TOPIC_PFX = STATUS10_TOPIC_SFX
    ∧ ("tele/x/STATUS10" : String) ≠ "stat/x/STATUS10" := by
  refine ⟨by decide, by decide, by decide, by decide, by decide, by decide⟩

/-- C7 — invoking `discover_cmd` while `discovery_in` is set (the code's
`Running` state) returns failure with the state — topic index, device
directory, node set, everything — exactly as it was. -/
theorem c7_reentrant_discover_rejected (s : DState) (cfg : Config)
    (h : s.ctrl.discovery_in = true) :
    discover_cmd s cfg = (s, false) := by
  unfold discover_cmd
  rw [h]
  simp

/-- Witness for C7 at a concrete busy state. -/
theorem c7_reentrant_discover_rejected_witness :
    c7busy.ctrl.discovery_in = true ∧ discover_cmd c7busy c7cfg = (c7busy, false) :=
  ⟨rfl, c7_reentrant_discover_rejected c7busy c7cfg rfl⟩

/-- C8 — the payload `{"ANALOG": {"A1": 42}}` on the bound topic
`tele/dev1/SENSOR`, with no configured device declaring `sensor_id "A1"`, is
dropped with an error instead of being dispatched: `_extract_sensors` hands
the embedded `ANALOG` object itself to the sensor-id scan, whose
`sensor_type in device['sensor_id']` comparison raises `TypeError` for the
device that declares `sensor_id "A2"` on that topic, and
`_route_message_to_device` catches and drops.  The plain topic lookup — the
fallback the claim promises — would have resolved, as the last conjuncts
show. -/
theorem c8_analog_payload_dropped_not_dispatched :
    process_json_message c8state "tele/dev1/SENSOR" c8data = [.errorDropped]
    ∧ (∀ d ∈ c8state.ctrl.devlist, d.sensorId ≠ some "A1")
    ∧ dev_by_topic c8state.ctrl "tele/dev1/SENSOR" = some "other"
    ∧ route_message_to_device c8state "tele/dev1/SENSOR" Option.none = .dispatched "other" := by
  refine ⟨by decide, by decide, by decide, by decide⟩

/-- A dict with no entry at `k` reads back as `None`. -/
theorem dgetv_eq_pnone_of_not_dhas (d : PyDict) (k : String) (h : dhas d k = false) :
    dgetv d k = PyVal.pnone := by
  unfold dgetv
  cases hf : d.find? (fun p => p.1 == k) with
  | none => rfl
  | some p =>
    exfalso
    have hm := List.mem_of_find?_eq_some hf
    have hp := List.find?_some hf
    have : dhas d k = true := by
      unfold dhas
      exact List.any_eq_true.mpr ⟨p, hm, hp⟩
    rw [h] at this
    exact Bool.false_ne_true this

/-- `pyEq v None` holds exactly for `None`. -/
theorem pyEq_pnone_iff (v : PyVal) : pyEq v PyVal.pnone = true ↔ v = PyVal.pnone := by
  cases v <;> simp [pyEq, PyVal.toNum, PyVal.beq]

/-- C9 — `upsert_by_id`: (1) when no entry's `id` matches, the new entry is
appended at the end; (2) only the first entry whose `id` value equals the new
entry's is replaced, every other entry keeping its position; (3) an entry with
no `id` key replaces the first entry whose `id` lookup also yields the absent
value (`None`), since `dict.get` gives both the same `None`. -/
theorem c9_upsert_by_id_spec :
    (∀ (l : List PyDict) (e : PyDict),
      (∀ d ∈ l, pyEq (dgetv d "id") (dgetv e "id") = false) →
      upsert_by_id l e = l ++ [e])
    ∧ (∀ (l₁ l₂ : List PyDict) (d e : PyDict),
      (∀ d2 ∈ l₁, pyEq (dgetv d2 "id") (dgetv e "id") = false) →
      pyEq (dgetv d "id") (dgetv e "id") = true →
      upsert_by_id (l₁ ++ d :: l₂) e = l₁ ++ e :: l₂)
    ∧ (∀ (l₁ l₂ : List PyDict) (d e : PyDict),
      dhas e "id" = false → dhas d "id" = false →
      (∀ d2 ∈ l₁, dgetv d2 "id" ≠ PyVal.pnone) →
      upsert_by_id (l₁ ++ d :: l₂) e = l₁ ++ e :: l₂) := by
  have replaceFirst : ∀ (l₁ l₂ : List PyDict) (d e : PyDict),
      (∀ d2 ∈ l₁, pyEq (dgetv d2 "id") (dgetv e "id") = false) →
      pyEq (dgetv d "id") (dgetv e "id") = true →
      upsert_by_id (l₁ ++ d :: l₂) e = l₁ ++ e :: l₂ := by
    intro l₁
    induction l₁ with
    | nil =>
      intro l₂ d e _ hd
      simp [upsert_by_id, hd]
    | cons a l₁ ih =>
      intro l₂ d e h₁ hd
      have ha : pyEq (dgetv a "id") (dgetv e "id") = false := h₁ a (by simp)
      simp only [List.cons_append, upsert_by_id, ha]
      simp only [Bool.false_eq_true, if_false, List.append_eq]
      rw [ih l₂ d e (fun d2 hm => h₁ d2 (by simp [hm])) hd]
  refine ⟨?_, replaceFirst, ?_⟩
  · intro l e h
    induction l with
    | nil => rfl
    | cons a l ih =>
      have ha : pyEq (dgetv a "id") (dgetv e "id") = false := h a (by simp)
      simp only [upsert_by_id, ha, Bool.false_eq_true, if_false, List.cons_append]
      rw [ih (fun d hm => h d (by simp [hm]))]
  · intro l₁ l₂ d e he hd h₁
    have he2 : dgetv e "id" = PyVal.pnone := dgetv_eq_pnone_of_not_dhas e "id" he
    have hd2 : dgetv d "id" = PyVal.pnone := dgetv_eq_pnone_of_not_dhas d "id" hd
    refine replaceFirst l₁ l₂ d e ?_ (by rw [he2, hd2]; rfl)
    intro d2 hm
    rw [he2]
    cases hq : pyEq (dgetv d2 "id") PyVal.pnone with
    | false => rfl
    | true => exact absurd ((pyEq_pnone_iff _).mp hq) (h₁ d2 hm)

/-- Witness for C9: the three parts applied at concrete inputs — an append, a
first-match replacement, and a no-`id` replacement. -/
theorem c9_upsert_by_id_spec_witness :
    upsert_by_id [[("id", .pstr "b")]] [("id", .pstr "a")] =
      [[("id", .pstr "b")], [("id", .pstr "a")]]
    ∧ upsert_by_id [[("id", .pstr "b")], [("id", .pstr "a")]]
        [("id", .pstr "a"), ("extra", .pint 1)] =
      [[("id", .pstr "b")], [("id", .pstr "a"), ("extra", .pint 1)]]
    ∧ upsert_by_id [[("id", .pstr "b")], [("x", .pint 0)], [("id", .pstr "c")]]
        [("y", .pint 2)] =
      [[("id", .pstr "b")], [("y", .pint 2)], [("id", .pstr "c")]] :=
  ⟨c9_upsert_by_id_spec.1 [[("id", .pstr "b")]] [("id", .pstr "a")] (by decide),
   c9_upsert_by_id_spec.2.1 [[("id", .pstr "b")]] [] [("id", .pstr "a")]
     [("id", .pstr "a"), ("extra", .pint 1)] (by decide) (by decide),
   c9_upsert_by_id_spec.2.2 [[("id", .pstr "b")]] [[("id", .pstr "c")]]
     [("x", .pint 0)] [("y", .pint 2)] (by decide) (by decide)
     (fun d2 hm => by
       simp only [List.mem_singleton] at hm
       subst hm
       intro h
       exact PyVal.noConfusion h)⟩

/-- C10 — `_get_int` returns exactly the first argument that is an integer or
a digits-only string (digit strings converted); strings with a sign, decimal
point or whitespace never qualify; hence an `mqtt_port` override of `"-1"`
falls through to the devfile value or the compiled default `1884`; and the
result is `None` when no argument qualifies. -/
theorem c10_get_int_first_qualifying :
    (∀ args : List PyVal, get_int args = (args.find? intQualifies).map intConvert)
    ∧ intQualifies (.pstr "-1") = false
    ∧ intQualifies (.pstr "18.84") = false
    ∧ intQualifies (.pstr " 1 ") = false
    ∧ mqtt_port_resolved (.pstr "-1") (.pstr "1883") = some (.pint 1883)
    ∧ mqtt_port_resolved (.pstr "-1") .pnone = some (.pint 1884)
    ∧ get_int [.pstr "-1", .pstr "18.84"] = Option.none := by
  refine ⟨?_, by decide, by decide, by decide, rfl, rfl, rfl⟩
  intro args
  induction args with
  | nil => rfl
  | cons v vs ih =>
    cases v with
    | pnone => simpa [get_int, List.find?, intQualifies, isInstanceInt] using ih
    | pbool b => simp [get_int, List.find?, intQualifies, isInstanceInt, intConvert]
    | pint n => simp [get_int, List.find?, intQualifies, isInstanceInt, intConvert]
    | pstr s =>
      by_cases hd : pyIsdigit s
      · simp [get_int, List.find?, intQualifies, isInstanceInt, intConvert, hd]
      · simpa [get_int, List.find?, intQualifies, isInstanceInt, hd] using ih
    | plist xs => simpa [get_int, List.find?, intQualifies, isInstanceInt] using ih
    | pdict xs => simpa [get_int, List.find?, intQualifies, isInstanceInt] using ih

/-!
## Reconciliation lemmas (supporting C6)
-/

/-- `addNodeAck` membership. -/
theorem mem_addNodeAck (l : List String) (a x : String) :
    x ∈ addNodeAck l a ↔ x ∈ l ∨ x = a := by
  unfold addNodeAck
  by_cases h : a ∈ l
  · rw [if_pos (List.elem_iff.mpr h)]
    constructor
    · exact Or.inl
    · rintro (hx | rfl)
      · exact hx
      · exact h
  · rw [if_neg (fun hcc => h (List.elem_iff.mp hcc))]
    simp

/-- `addNodeAck` preserves `Nodup`. -/
theorem nodup_addNodeAck (l : List String) (a : String) (h : l.Nodup) :
    (addNodeAck l a).Nodup := by
  unfold addNodeAck
  by_cases hc : a ∈ l
  · rw [if_pos (List.elem_iff.mpr hc)]
    exact h
  · rw [if_neg (fun hcc => hc (List.elem_iff.mp hcc))]
    simp [List.nodup_append, h, hc]

/-- One step of `newList`. -/
theorem newList_cons (snap : List String) (d : Dev) (ds : List Dev) :
    newList snap (d :: ds) =
      if devAppended snap d then format_device_address_dev d :: newList snap ds
      else newList snap ds := by
  unfold newList
  rw [List.filterMap_cons]
  by_cases h : devAppended snap d = true <;> simp [h]

/-- One step of `createdDevs`. -/
theorem createdDevs_cons (snap : List String) (d : Dev) (ds : List Dev) :
    createdDevs snap (d :: ds) =
      if devCreated snap d then d :: createdDevs snap ds else createdDevs snap ds := by
  unfold createdDevs
  rw [List.filter_cons]

/-- `nodes_new` depends only on the snapshot and the device list. -/
theorem discover_nodes_loop_snd (snap : List String) :
    ∀ (ds : List Dev) (s : DState),
      (discover_nodes_loop snap s ds).2 = newList snap ds := by
  intro ds
  induction ds with
  | nil => intro s; rfl
  | cons d ds ih =>
    intro s
    rw [newList_cons]
    by_cases hv : validate_device_definition d = true
    · by_cases hc : format_device_address_dev d ∈ snap
      · simp [discover_nodes_loop, devAppended, List.elem_iff, hv, hc, ih]
      · by_cases hs : supportedType d = true
        · simp [discover_nodes_loop, devAppended, List.elem_iff, hv, hc, hs, ih]
        · simp [discover_nodes_loop, devAppended, List.elem_iff, hv, hc, hs, ih]
    · simp [discover_nodes_loop, devAppended, List.elem_iff, hv, ih]

/-- The walk's state effect is the fold of `createNode` over the devices it
creates. -/
theorem discover_nodes_loop_fst (snap : List String) :
    ∀ (ds : List Dev) (s : DState),
      (discover_nodes_loop snap s ds).1 = (createdDevs snap ds).foldl createNode s := by
  intro ds
  induction ds with
  | nil => intro s; rfl
  | cons d ds ih =>
    intro s
    rw [createdDevs_cons]
    by_cases hv : validate_device_definition d = true
    · by_cases hc : format_device_address_dev d ∈ snap
      · simp [discover_nodes_loop, devCreated, List.elem_iff, hv, hc, ih]
      · by_cases hs : supportedType d = true
        · simp [discover_nodes_loop, devCreated, List.elem_iff, hv, hc, hs, ih]
        · simp [discover_nodes_loop, devCreated, List.elem_iff, hv, hc, hs, ih]
    · simp [discover_nodes_loop, devCreated, List.elem_iff, hv, ih]

/-- `add_status_topics` touches only the two topic structures. -/
theorem add_status_topics_sameNonTopic (d : Dev) :
    ∀ (ts : List String) (c : Ctrl), sameNonTopic c (add_status_topics c d ts) := by
  intro ts
  induction ts with
  | nil => intro c; exact ⟨rfl, rfl, rfl, rfl, rfl⟩
  | cons t ts ih => intro c; exact ih _

/-- `sameNonTopic` composes. -/
theorem sameNonTopic_trans {a b c : Ctrl} (h1 : sameNonTopic a b) (h2 : sameNonTopic b c) :
    sameNonTopic a c :=
  ⟨h2.1.trans h1.1, h2.2.1.trans h1.2.1, h2.2.2.1.trans h1.2.2.1,
   h2.2.2.2.1.trans h1.2.2.2.1, h2.2.2.2.2.trans h1.2.2.2.2⟩

/-- `_add_device_status_topics` touches only the two topic structures. -/
theorem add_device_status_topics_sameNonTopic (c : Ctrl) (d : Dev) :
    sameNonTopic c (add_device_status_topics c d) := by
  unfold add_device_status_topics
  cases hst : ((DEVICE_CONFIG (d.devType.getD "")).getD ⟨Option.none, Option.none⟩).status_topics with
  | none =>
    cases hex : ((DEVICE_CONFIG (d.devType.getD "")).getD ⟨Option.none, Option.none⟩).extra_status_topics with
    | none => simp only [hst, hex]; exact add_status_topics_sameNonTopic d _ c
    | some g =>
      simp only [hst, hex]
      exact sameNonTopic_trans (add_status_topics_sameNonTopic d _ c)
        (add_status_topics_sameNonTopic d _ _)
  | some f =>
    cases hex : ((DEVICE_CONFIG (d.devType.getD "")).getD ⟨Option.none, Option.none⟩).extra_status_topics with
    | none => simp only [hst, hex]; exact add_status_topics_sameNonTopic d _ c
    | some g =>
      simp only [hst, hex]
      exact sameNonTopic_trans (add_status_topics_sameNonTopic d _ c)
        (add_status_topics_sameNonTopic d _ _)

/-- `createNode`'s full effect: topics aside, the controller state is
unchanged, the platform registers the address, the creation request is
logged, and nothing is deleted. -/
theorem createNode_spec (s : DState) (d : Dev) :
    sameNonTopic s.ctrl (createNode s d).ctrl
    ∧ (createNode s d).polyNodes = addNodeAck s.polyNodes (format_device_address_dev d)
    ∧ (createNode s d).addLog = s.addLog ++ [format_device_address_dev d]
    ∧ (createNode s d).delLog = s.delLog := by
  refine ⟨add_device_status_topics_sameNonTopic _ _, rfl, rfl, rfl⟩

/-- The fold of `createNode` over a device list: controller state changes only
in the topic structures; the platform registry accumulates the addresses; no
deletions happen. -/
theorem foldl_createNode_spec :
    ∀ (ds : List Dev) (s : DState),
      sameNonTopic s.ctrl ((ds.foldl createNode s).ctrl)
      ∧ (ds.foldl createNode s).polyNodes =
          ds.foldl (fun l d => addNodeAck l (format_device_address_dev d)) s.polyNodes
      ∧ (ds.foldl createNode s).delLog = s.delLog := by
  intro ds
  induction ds with
  | nil => intro s; exact ⟨⟨rfl, rfl, rfl, rfl, rfl⟩, rfl, rfl⟩
  | cons d ds ih =>
    intro s
    have hstep := createNode_spec s d
    have hrest := ih (createNode s d)
    refine ⟨sameNonTopic_trans hstep.1 hrest.1, ?_, hrest.2.2.trans hstep.2.2.2⟩
    rw [List.foldl_cons, List.foldl_cons, hrest.2.1, hstep.2.1]

/-- Membership after folding `addNodeAck` over device addresses. -/
theorem mem_foldl_addNodeAck :
    ∀ (ds : List Dev) (l : List String) (x : String),
      x ∈ ds.foldl (fun l d => addNodeAck l (format_device_address_dev d)) l ↔
        x ∈ l ∨ x ∈ ds.map format_device_address_dev := by
  intro ds
  induction ds with
  | nil => intro l x; simp
  | cons d ds ih =>
    intro l x
    rw [List.foldl_cons, ih, mem_addNodeAck]
    simp
    tauto

/-- `Nodup` is preserved by folding `addNodeAck`. -/
theorem nodup_foldl_addNodeAck :
    ∀ (ds : List Dev) (l : List String), l.Nodup →
      (ds.foldl (fun l d => addNodeAck l (format_device_address_dev d)) l).Nodup := by
  intro ds
  induction ds with
  | nil => intro l h; exact h
  | cons d ds ih => intro l h; exact ih _ (nodup_addNodeAck _ _ h)

/-- `_remove_status_topics` removes nothing: its comparison of an address
string against the node object is always false. -/
theorem remove_status_topics_eq (c : Ctrl) (n : String) : remove_status_topics c n = c := by
  unfold remove_status_topics
  have h : ∀ (l : List (String × String)) (acc : Ctrl),
      l.foldl (fun acc p => if strEqNode p.2 (getNodeRef n) = true then
        { acc with
          status_topics := acc.status_topics.erase p.1,
          topics_to_devices := acc.topics_to_devices.eraseP (fun q => q.1 == p.1) }
        else acc) acc = acc := by
    intro l
    induction l with
    | nil => intro acc; rfl
    | cons p l ih => intro acc; simp [strEqNode, List.foldl_cons, ih]
  exact h _ _

/-- `_cleanup_nodes` is the identity when every old node is in `nodes_new`. -/
theorem cleanup_loop_id (nn : List String) :
    ∀ (ns : List String) (s : DState),
      (∀ n ∈ ns, n ∈ nn) → cleanup_loop nn s ns = s := by
  intro ns
  induction ns with
  | nil => intro s _; rfl
  | cons n ns ih =>
    intro s h
    have hn : n ∈ nn := h n (by simp)
    simp only [cleanup_loop]
    rw [if_pos (List.elem_iff.mpr hn)]
    exact ih s (fun m hm => h m (by simp [hm]))

/-- Membership in the platform registry after `_cleanup_nodes`, and
preservation of `Nodup`. -/
theorem cleanup_loop_polyNodes (nn : List String) :
    ∀ (ns : List String) (s : DState), s.polyNodes.Nodup →
      (∀ x, x ∈ (cleanup_loop nn s ns).polyNodes ↔
        x ∈ s.polyNodes ∧ (x ∈ nn ∨ x ∉ ns))
      ∧ (cleanup_loop nn s ns).polyNodes.Nodup := by
  intro ns
  induction ns with
  | nil =>
    intro s hs
    exact ⟨fun x => ⟨fun h => ⟨h, Or.inr (by simp)⟩, fun h => h.1⟩, hs⟩
  | cons n ns ih =>
    intro s hs
    by_cases hc : n ∈ nn
    · have heq : cleanup_loop nn s (n :: ns) = cleanup_loop nn s ns := by
        simp only [cleanup_loop]
        rw [if_pos (List.elem_iff.mpr hc)]
      rw [heq]
      obtain ⟨hmem, hnd⟩ := ih s hs
      refine ⟨fun x => ?_, hnd⟩
      rw [hmem x]
      constructor
      · rintro ⟨hx, hy⟩
        refine ⟨hx, ?_⟩
        rcases hy with hy | hy
        · exact Or.inl hy
        · by_cases hxn : x = n
          · exact Or.inl (hxn ▸ hc)
          · exact Or.inr (by simp [hxn, hy])
      · rintro ⟨hx, hy⟩
        refine ⟨hx, ?_⟩
        rcases hy with hy | hy
        · exact Or.inl hy
        · exact Or.inr (fun hm => hy (by simp [hm]))
    · have heq : cleanup_loop nn s (n :: ns) = cleanup_loop nn
          { s with
            ctrl := { (remove_status_topics s.ctrl n) with discovery_in := false },
            polyNodes := s.polyNodes.erase n,
            delLog := s.delLog ++ [n] } ns := by
        simp only [cleanup_loop]
        rw [if_neg (fun hcc => hc (List.elem_iff.mp hcc))]
      rw [heq]
      have hnd2 : (s.polyNodes.erase n).Nodup := hs.erase n
      obtain ⟨hmem, hnd⟩ := ih { s with
          ctrl := { (remove_status_topics s.ctrl n) with discovery_in := false },
          polyNodes := s.polyNodes.erase n,
          delLog := s.delLog ++ [n] } hnd2
      refine ⟨fun x => ?_, hnd⟩
      rw [hmem x]
      show x ∈ s.polyNodes.erase n ∧ _ ↔ _
      rw [hs.mem_erase_iff]
      constructor
      · rintro ⟨⟨hxn, hx⟩, hy⟩
        refine ⟨hx, ?_⟩
        rcases hy with hy | hy
        · exact Or.inl hy
        · exact Or.inr (by simp [hxn, hy])
      · rintro ⟨hx, hy⟩
        rcases hy with hy | hy
        · have hxn : x ≠ n := fun he => hc (he ▸ hy)
          exact ⟨⟨hxn, hx⟩, Or.inl hy⟩
        · have hxn : x ≠ n := fun he => hy (by simp [he])
          exact ⟨⟨hxn, hx⟩, Or.inr (fun hm => hy (by simp [hm]))⟩

/-- An accepted `discover_cmd` run computes `runResult` and succeeds. -/
theorem discover_cmd_accepted (s : DState) (cfg : Config)
    (h : s.ctrl.discovery_in = false) :
    discover_cmd s cfg = (runResult s cfg, true) := by
  unfold discover_cmd runResult runStart
  rw [h]
  simp [discoverF]

/-- A recorded device's address is in `nodes_new`. -/
theorem mem_newList_of (snap : List String) (ds : List Dev) (d : Dev)
    (hd : d ∈ ds) (h : devAppended snap d = true) :
    format_device_address_dev d ∈ newList snap ds := by
  unfold newList
  exact List.mem_filterMap.mpr ⟨d, hd, by simp [h]⟩

/-- Addresses in `nodes_new` come from recorded devices. -/
theorem mem_newList_elim (snap : List String) (ds : List Dev) (x : String)
    (h : x ∈ newList snap ds) :
    ∃ d ∈ ds, devAppended snap d = true ∧ format_device_address_dev d = x := by
  unfold newList at h
  obtain ⟨d, hd, he⟩ := List.mem_filterMap.mp h
  by_cases ha : devAppended snap d = true
  · simp [ha] at he
    exact ⟨d, hd, ha, he⟩
  · simp [ha] at he

/-- `_discover` up to `_cleanup_nodes`, in terms of the walk
characterizations. -/
theorem cleanupPhase_eq (X : DState) :
    cleanupPhase X =
      (cleanup_loop (newList X.polyNodes X.ctrl.devlist)
        ((createdDevs X.polyNodes X.ctrl.devlist).foldl createNode
          { X with ctrl := { X.ctrl with discovery_in := true } })
        (X.polyNodes.filter (fun n => n ≠ ctrl_node_id)),
       newList X.polyNodes X.ctrl.devlist) := by
  simp only [cleanupPhase, discoverPhase1, discover_nodes_loop_fst, discover_nodes_loop_snd]

/-- `nodes_new` is determined pointwise by `devAppended`. -/
theorem newList_congr (s1 s2 : List String) :
    ∀ ds : List Dev, (∀ d ∈ ds, devAppended s2 d = devAppended s1 d) →
      newList s2 ds = newList s1 ds := by
  intro ds
  induction ds with
  | nil => intro _; rfl
  | cons d ds ih =>
    intro h
    rw [newList_cons, newList_cons, h d (by simp), ih (fun d2 hm => h d2 (by simp [hm]))]


/-- C6 (as claimed) is false: with two device specs deriving the same address
`a` — the first of an unsupported type, the second a switch — the first run
counts one node but the second run counts two (the unsupported spec's address
now exists, so the walk records it), changing the node-count summary. -/
theorem c6_counterexample_duplicate_address :
    (discover_cmd c6s0 c6cfg).1.ctrl.numNodes = 1
    ∧ (discover_cmd (clearLogs (discover_cmd c6s0 c6cfg).1) c6cfg).1.ctrl.numNodes = 2 := by
  refine ⟨by decide, by decide⟩

/-- Bool-level congruence for `contains` from a membership equivalence. -/
theorem contains_congr_of_iff (l1 l2 : List String) (a : String)
    (h : a ∈ l1 ↔ a ∈ l2) : l1.contains a = l2.contains a := by
  show List.elem a l1 = List.elem a l2
  by_cases h1 : a ∈ l1
  · rw [List.elem_iff.mpr h1, List.elem_iff.mpr (h.mp h1)]
  · have h2 : a ∉ l2 := fun hx => h1 (h.mpr hx)
    have e1 : List.elem a l1 = false := by
      cases hb : List.elem a l1
      · rfl
      · exact absurd (List.elem_iff.mp hb) h1
    have e2 : List.elem a l2 = false := by
      cases hb : List.elem a l2
      · rfl
      · exact absurd (List.elem_iff.mp hb) h2
    rw [e1, e2]

/-- C6 (amended) — reconciliation is idempotent for every configuration whose
valid device specs derive pairwise-distinct addresses: starting from any
quiescent state whose platform registry has no duplicate addresses, a second
run with the configuration unchanged leaves the topic→address index, the
subscribed-topic list, the platform node set and the node count exactly as
the first run left them, and issues no node create or remove requests. -/
theorem c6_amended_reconciliation_idempotent (cfg : Config) (s0 : DState)
    (hflag : s0.ctrl.discovery_in = false)
    (hpn : s0.polyNodes.Nodup)
    (haddr : ((cfg.devices.filter (fun d => validate_device_definition d)).map
        format_device_address_dev).Nodup) :
    ((discover_cmd (clearLogs (discover_cmd s0 cfg).1) cfg).1.ctrl.topics_to_devices =
        (clearLogs (discover_cmd s0 cfg).1).ctrl.topics_to_devices)
    ∧ ((discover_cmd (clearLogs (discover_cmd s0 cfg).1) cfg).1.ctrl.status_topics =
        (clearLogs (discover_cmd s0 cfg).1).ctrl.status_topics)
    ∧ ((discover_cmd (clearLogs (discover_cmd s0 cfg).1) cfg).1.polyNodes =
        (clearLogs (discover_cmd s0 cfg).1).polyNodes)
    ∧ ((discover_cmd (clearLogs (discover_cmd s0 cfg).1) cfg).1.ctrl.numNodes =
        (clearLogs (discover_cmd s0 cfg).1).ctrl.numNodes)
    ∧ (discover_cmd (clearLogs (discover_cmd s0 cfg).1) cfg).1.addLog = []
    ∧ (discover_cmd (clearLogs (discover_cmd s0 cfg).1) cfg).1.delLog = [] := by
  -- run-1 artifacts
  have hacc1 : discover_cmd s0 cfg = (runResult s0 cfg, true) :=
    discover_cmd_accepted s0 cfg hflag
  have hacc2 : discover_cmd (clearLogs (runResult s0 cfg)) cfg =
      (runResult (clearLogs (runResult s0 cfg)) cfg, true) :=
    discover_cmd_accepted _ cfg rfl
  rw [hacc1]
  show ((discover_cmd (clearLogs (runResult s0 cfg)) cfg).1.ctrl.topics_to_devices = _) ∧ _
  rw [hacc2]
  -- names
  have hrsP1 : (runStart s0 cfg).polyNodes = s0.polyNodes := rfl
  have hrsD1 : (runStart s0 cfg).ctrl.devlist = cfg.devices := rfl
  -- membership in the registry after run 1
  have hfold := foldl_createNode_spec (createdDevs s0.polyNodes cfg.devices)
    { runStart s0 cfg with ctrl := { (runStart s0 cfg).ctrl with discovery_in := true } }
  have hfoldPoly : ((createdDevs s0.polyNodes cfg.devices).foldl createNode
      { runStart s0 cfg with ctrl := { (runStart s0 cfg).ctrl with discovery_in := true } }).polyNodes =
      (createdDevs s0.polyNodes cfg.devices).foldl
        (fun l d => addNodeAck l (format_device_address_dev d)) s0.polyNodes :=
    hfold.2.1
  have hndA : ((createdDevs s0.polyNodes cfg.devices).foldl createNode
      { runStart s0 cfg with ctrl := { (runStart s0 cfg).ctrl with discovery_in := true } }).polyNodes.Nodup := by
    rw [hfoldPoly]
    exact nodup_foldl_addNodeAck _ _ hpn
  have hclean := cleanup_loop_polyNodes (newList s0.polyNodes cfg.devices)
    (s0.polyNodes.filter (fun n => n ≠ ctrl_node_id))
    ((createdDevs s0.polyNodes cfg.devices).foldl createNode
      { runStart s0 cfg with ctrl := { (runStart s0 cfg).ctrl with discovery_in := true } })
    hndA
  have hS1poly : (runResult s0 cfg).polyNodes =
      (cleanup_loop (newList s0.polyNodes cfg.devices)
        ((createdDevs s0.polyNodes cfg.devices).foldl createNode
          { runStart s0 cfg with ctrl := { (runStart s0 cfg).ctrl with discovery_in := true } })
        (s0.polyNodes.filter (fun n => n ≠ ctrl_node_id))).polyNodes := by
    show (cleanupPhase (runStart s0 cfg)).1.polyNodes = _
    rw [cleanupPhase_eq]
    exact rfl
  have hS1mem : ∀ x, x ∈ (runResult s0 cfg).polyNodes ↔
      (x ∈ s0.polyNodes ∨
        x ∈ (createdDevs s0.polyNodes cfg.devices).map format_device_address_dev)
      ∧ (x ∈ newList s0.polyNodes cfg.devices ∨
        x ∉ s0.polyNodes.filter (fun n => n ≠ ctrl_node_id)) := by
    intro x
    rw [hS1poly, hclean.1 x, hfoldPoly, mem_foldl_addNodeAck]
  -- address injectivity on valid devices
  have hinj := List.inj_on_of_nodup_map haddr
  -- a valid supported device's address is registered after run 1
  have hF1 : ∀ d ∈ cfg.devices, validate_device_definition d = true →
      supportedType d = true →
      format_device_address_dev d ∈ (runResult s0 cfg).polyNodes := by
    intro d hd hv hs2
    have happ : devAppended s0.polyNodes d = true := by
      simp [devAppended, hv, hs2]
    have hnn : format_device_address_dev d ∈ newList s0.polyNodes cfg.devices :=
      mem_newList_of _ _ _ hd happ
    rw [hS1mem]
    refine ⟨?_, Or.inl hnn⟩
    by_cases hc : format_device_address_dev d ∈ s0.polyNodes
    · exact Or.inl hc
    · refine Or.inr (List.mem_map.mpr ⟨d, ?_, rfl⟩)
      refine List.mem_filter.mpr ⟨hd, ?_⟩
      simp [devCreated, hv, hs2, List.elem_iff, hc]
  -- a valid unsupported device's address is registered after run 1 iff it was before
  have hF2 : ∀ d ∈ cfg.devices, validate_device_definition d = true →
      ¬(supportedType d = true) →
      (format_device_address_dev d ∈ (runResult s0 cfg).polyNodes ↔
        format_device_address_dev d ∈ s0.polyNodes) := by
    intro d hd hv hs2
    constructor
    · intro hmem
      rw [hS1mem] at hmem
      rcases hmem.1 with hx | hx
      · exact hx
      · exfalso
        obtain ⟨d2, hd2, he⟩ := List.mem_map.mp hx
        have hd2f := List.mem_filter.mp hd2
        have hdc := hd2f.2
        simp only [devCreated, Bool.and_eq_true, Bool.not_eq_eq_eq_not, Bool.not_true] at hdc
        have hv2 : validate_device_definition d2 = true := hdc.1.1
        have hs2' : supportedType d2 = true := hdc.2
        have hde : d2 = d :=
          hinj (List.mem_filter.mpr ⟨hd2f.1, by simp [hv2]⟩)
            (List.mem_filter.mpr ⟨hd, by simp [hv]⟩) he
        rw [hde] at hs2'
        exact hs2 hs2'
    · intro hc
      have happ : devAppended s0.polyNodes d = true := by
        simp [devAppended, hv, List.elem_iff, hc]
      rw [hS1mem]
      exact ⟨Or.inl hc, Or.inl (mem_newList_of _ _ _ hd happ)⟩
  -- every non-controller node registered after run 1 is in run 1's nodes_new
  have hF3 : ∀ x ∈ (runResult s0 cfg).polyNodes, x ≠ ctrl_node_id →
      x ∈ newList s0.polyNodes cfg.devices := by
    intro x hx hne
    rw [hS1mem] at hx
    rcases hx.2 with h2 | h2
    · exact h2
    · rcases hx.1 with h1 | h1
      · exact absurd (List.mem_filter.mpr ⟨h1, by simp [hne]⟩) h2
      · obtain ⟨d2, hd2, he⟩ := List.mem_map.mp h1
        have hd2f := List.mem_filter.mp hd2
        have hdc := hd2f.2
        simp only [devCreated, Bool.and_eq_true] at hdc
        have happ : devAppended s0.polyNodes d2 = true := by
          simp [devAppended, hdc.1.1, hdc.2]
        rw [← he]
        exact mem_newList_of _ _ _ hd2f.1 happ
  -- run 2 creates nothing
  have hcre2 : createdDevs (runResult s0 cfg).polyNodes cfg.devices = [] := by
    refine List.filter_eq_nil_iff.mpr ?_
    intro d hd hdc
    simp only [devCreated, Bool.and_eq_true, Bool.not_eq_eq_eq_not, Bool.not_true] at hdc
    have hcon := List.elem_iff.mpr (hF1 d hd hdc.1.1 hdc.2)
    have hfalse : List.elem (format_device_address_dev d) (runResult s0 cfg).polyNodes = false :=
      hdc.1.2
    rw [hcon] at hfalse
    exact absurd hfalse (by simp)
  -- run 2's nodes_new equals run 1's
  have hnn2 : newList (runResult s0 cfg).polyNodes cfg.devices =
      newList s0.polyNodes cfg.devices := by
    refine newList_congr _ _ cfg.devices ?_
    intro d hd
    by_cases hv : validate_device_definition d = true
    · by_cases hs2 : supportedType d = true
      · simp [devAppended, hv, hs2]
      · have hcc := contains_congr_of_iff _ _ (format_device_address_dev d)
          (hF2 d hd hv hs2)
        simp only [devAppended, hv, Bool.true_and]
        rw [hcc]
    · simp [devAppended, hv]
  -- run 2 removes nothing
  have hold2 : ∀ n ∈ (runResult s0 cfg).polyNodes.filter (fun n => n ≠ ctrl_node_id),
      n ∈ newList (runResult s0 cfg).polyNodes cfg.devices := by
    intro n hn
    have hf := List.mem_filter.mp hn
    have hne : n ≠ ctrl_node_id := by simpa using hf.2
    rw [hnn2]
    exact hF3 n hf.1 hne
  -- assemble the six components of run 2
  have hrsP2 : (runStart (clearLogs (runResult s0 cfg)) cfg).polyNodes =
      (runResult s0 cfg).polyNodes := rfl
  have hrsD2 : (runStart (clearLogs (runResult s0 cfg)) cfg).ctrl.devlist = cfg.devices := rfl
  have hphase2 : cleanupPhase (runStart (clearLogs (runResult s0 cfg)) cfg) =
      ({ runStart (clearLogs (runResult s0 cfg)) cfg with
         ctrl := { (runStart (clearLogs (runResult s0 cfg)) cfg).ctrl with
           discovery_in := true } },
       newList (runResult s0 cfg).polyNodes cfg.devices) := by
    rw [cleanupPhase_eq]
    show (cleanup_loop (newList (runResult s0 cfg).polyNodes cfg.devices)
        ((createdDevs (runResult s0 cfg).polyNodes cfg.devices).foldl createNode
          { runStart (clearLogs (runResult s0 cfg)) cfg with
            ctrl := { (runStart (clearLogs (runResult s0 cfg)) cfg).ctrl with
              discovery_in := true } })
        ((runResult s0 cfg).polyNodes.filter (fun n => n ≠ ctrl_node_id)),
       newList (runResult s0 cfg).polyNodes cfg.devices) = _
    rw [hcre2, List.foldl_nil, cleanup_loop_id _ _ _ hold2]
  refine ⟨?_, ?_, ?_, ?_, ?_, ?_⟩
  · show (cleanupPhase (runStart (clearLogs (runResult s0 cfg)) cfg)).1.ctrl.topics_to_devices = _
    rw [hphase2]
    exact rfl
  · show (cleanupPhase (runStart (clearLogs (runResult s0 cfg)) cfg)).1.ctrl.status_topics = _
    rw [hphase2]
    exact rfl
  · show (cleanupPhase (runStart (clearLogs (runResult s0 cfg)) cfg)).1.polyNodes = _
    rw [hphase2]
    exact rfl
  · show (cleanupPhase (runStart (clearLogs (runResult s0 cfg)) cfg)).2.length = _
    rw [hphase2]
    show (newList (runResult s0 cfg).polyNodes cfg.devices).length = _
    rw [hnn2]
    show _ = (cleanupPhase (runStart s0 cfg)).2.length
    rw [cleanupPhase_eq]
    exact rfl
  · show (cleanupPhase (runStart (clearLogs (runResult s0 cfg)) cfg)).1.addLog = []
    rw [hphase2]
    exact rfl
  · show (cleanupPhase (runStart (clearLogs (runResult s0 cfg)) cfg)).1.delLog = []
    rw [hphase2]
    exact rfl

/-- Witness for C6 (amended): a fresh state and a one-switch configuration. -/
theorem c6_amended_reconciliation_idempotent_witness :
    c6s0.ctrl.discovery_in = false
    ∧ ((discover_cmd (clearLogs (discover_cmd c6s0 c6wcfg).1) c6wcfg).1.ctrl.topics_to_devices =
        (clearLogs (discover_cmd c6s0 c6wcfg).1).ctrl.topics_to_devices) :=
  ⟨rfl, (c6_amended_reconciliation_idempotent c6wcfg c6s0 rfl (by decide) (by decide)).1⟩

end MqttPoly
